import Mathlib

/-!
Verification of `gcal.py` (bwebster67/gcal-cli).

A shallow embedding of the single source file `src/gcal.py`, a command-line
Google Calendar client with three subcommands (`add`, `next`, `today`).
Python dictionaries coming from the remote API are embedded as structures with
`Option`-valued fields (a `none` field models an absent dictionary key, or the
Python value `None`).  Python exceptions are embedded as `Except PyErr`; the
order in which a statement can raise follows the source line by line.
Printing is embedded as returning the list of printed lines.

The Python standard-library call `datetime.datetime.fromisoformat` and the
calls into the `google-auth` / `googleapiclient` libraries are external to the
repository; they are modelled from their documented behaviour (CPython >= 3.11
is required by the source, which uses `datetime.UTC` at line 50).
-/

namespace Gcal

/-- Python exceptions that the statements of `gcal.py` can raise, each carrying
the string that `str(e)` would produce for the `Error: {e}` handler in `main`.
`valueError` is the one class `print_event` catches; `keyError` models
`dict[missing]`, `typeError` models `fromisoformat(None)`, and the remaining
constructors fold the failure modes of the auth and API libraries. -/
inductive PyErr where
  | keyError (k : String)
  | valueError (msg : String)
  | typeError (msg : String)
  | attributeError (msg : String)
  | authError (msg : String)
  | apiError (msg : String)
deriving DecidableEq, Repr

/-- The message `str(e)` interpolated by `print(f"Error: {e}")` in `main`.
CPython renders `str(KeyError('k'))` with quotes around the key. -/
def pyErrMsg : PyErr → String
  | .keyError k => "'" ++ k ++ "'"
  | .valueError m => m
  | .typeError m => m
  | .attributeError m => m
  | .authError m => m
  | .apiError m => m

instance {ε α : Type} [DecidableEq ε] [DecidableEq α] : DecidableEq (Except ε α) := fun a b =>
  match a, b with
  | .ok x, .ok y =>
    if h : x = y then .isTrue (by rw [h]) else .isFalse (by simp [h])
  | .error x, .error y =>
    if h : x = y then .isTrue (by rw [h]) else .isFalse (by simp [h])
  | .ok _, .error _ => .isFalse (by simp)
  | .error _, .ok _ => .isFalse (by simp)

/-- A Python `datetime.datetime` value (no timezone: the program only feeds
naive calendar strings to the presenter). -/
structure PyDateTime where
  year : Nat
  month : Nat
  day : Nat
  hour : Nat
  minute : Nat
  second : Nat
deriving DecidableEq, Repr

/-- Numeric value of an ASCII digit character, `none` otherwise. -/
def digitVal (c : Char) : Option Nat :=
  if c.isDigit then some (c.toNat - 48) else none

/-- Parse exactly two ASCII digits from the front of a character list. -/
def parse2 : List Char → Option (Nat × List Char)
  | a :: b :: rest => do
    let x ← digitVal a
    let y ← digitVal b
    some (10 * x + y, rest)
  | _ => none

/-- Parse exactly four ASCII digits from the front of a character list. -/
def parse4 : List Char → Option (Nat × List Char)
  | a :: b :: c :: d :: rest => do
    let x ← digitVal a
    let y ← digitVal b
    let z ← digitVal c
    let w ← digitVal d
    some (1000 * x + 100 * y + 10 * z + w, rest)
  | _ => none

/-- Parse the ISO calendar date `YYYY-MM-DD` from the front of a character
list, with CPython's range checks on month and day. -/
def parseIsoDate (cs : List Char) : Option (Nat × Nat × Nat × List Char) := do
  let (y, r1) ← parse4 cs
  match r1 with
  | '-' :: r2 => do
    let (m, r3) ← parse2 r2
    match r3 with
    | '-' :: r4 => do
      let (d, r5) ← parse2 r4
      if 1 ≤ m ∧ m ≤ 12 ∧ 1 ≤ d ∧ d ≤ 31 then some (y, m, d, r5) else none
    | _ => none
  | _ => none

/-- Parse an ISO time `HH[:MM[:SS]]` consuming the whole remaining input,
with range checks. -/
def parseIsoTime (cs : List Char) : Option (Nat × Nat × Nat) := do
  let (h, r1) ← parse2 cs
  if h ≥ 24 then none else
  match r1 with
  | [] => some (h, 0, 0)
  | ':' :: r2 => do
    let (mi, r3) ← parse2 r2
    if mi ≥ 60 then none else
    match r3 with
    | [] => some (h, mi, 0)
    | ':' :: r4 => do
      let (s, r5) ← parse2 r4
      if s ≥ 60 ∨ r5 ≠ [] then none else some (h, mi, s)
    | _ => none
  | _ => none

/-- Modelled from the documented behaviour of CPython's
`datetime.datetime.fromisoformat` (3.11+), which is external library code: it
parses `YYYY-MM-DD`, optionally followed by a one-character separator and a
time `HH[:MM[:SS]]`; a date-only string parses successfully with the time
defaulting to midnight (this holds in every CPython version that has
`fromisoformat`).  `none` models the `ValueError` raise.  Fractional seconds,
timezone offsets and the ISO week-date forms are omitted: no string the
claims exercise uses them, and every theorem below reads the parse through
this single model. -/
def fromisoformat (s : String) : Option PyDateTime := do
  let (y, m, d, rest) ← parseIsoDate s.data
  match rest with
  | [] => some ⟨y, m, d, 0, 0, 0⟩
  | _sep :: timeCs => do
    let (h, mi, se) ← parseIsoTime timeCs
    some ⟨y, m, d, h, mi, se⟩

/-- Zero-padded two-digit rendering, as `strftime` field rendering does. -/
def pad2 (n : Nat) : String :=
  if n < 10 then "0" ++ toString n else toString n

/-- Modelled from CPython's `strftime("%I:%M %p")` in the C locale: 12-hour
clock (`%I`, zero padded, hour 0 and 12 render as `12`), minutes, and
`AM`/`PM`. -/
def strftime_I_M_p (dt : PyDateTime) : String :=
  pad2 (if dt.hour % 12 = 0 then 12 else dt.hour % 12) ++ ":" ++ pad2 dt.minute
    ++ " " ++ (if dt.hour < 12 then "AM" else "PM")

/-- The `event['start']` sub-dictionary: each field `none` when the key is
absent. -/
structure StartDict where
  dateTime : Option String
  date : Option String
deriving DecidableEq, Repr

/-- A calendar event record as returned by the API.  `start = none` models a
record without a `'start'` key (`event['start']` then raises `KeyError`);
likewise `summary`. -/
structure Event where
  start : Option StartDict
  summary : Option String
  htmlLink : Option String
deriving DecidableEq, Repr

/-- `event['start'].get('dateTime', event['start'].get('date'))` (gcal.py
lines 91 and 101): the `dateTime` value if that key is present, else the
`date` value, else Python `None` (embedded as `none`). -/
def startValue (sd : StartDict) : Option String :=
  match sd.dateTime with
  | some s => some s
  | none => sd.date

/-- Python's `str.startswith`: the candidate's code points are a prefix of the
subject's code points (Lean's `String.data` is the code-point list). -/
def pyStartsWith (s pre : String) : Bool :=
  List.isPrefixOf pre.data s.data

/-- Embedding of `print_event(event, prefix)` (gcal.py lines 100-112), returning the single
printed line.  Faithful raise order: `event['start']` (line 101, `KeyError`),
`event['summary']` (line 102, `KeyError`), then `fromisoformat(start)` inside
`try`: a Python-`None` start raises `TypeError`, which the
`except ValueError` clause does NOT catch; an unparsable string raises
`ValueError`, caught, giving `time_str = "All Day"`. -/
def print_event (event : Event) (pfx : String) : Except PyErr String :=
  match event.start with
  | none => .error (.keyError "start")
  | some sd =>
    match event.summary with
    | none => .error (.keyError "summary")
    | some summary =>
      match startValue sd with
      | none =>
        .error (.typeError "fromisoformat: argument must be str")
      | some start =>
        let time_str :=
          match fromisoformat start with
          | some dt => strftime_I_M_p dt
          | none => "All Day"
        .ok (pfx ++ "\x1b[96m[" ++ time_str ++ "]\x1b[0m " ++ summary)

/-- Lines 91-93 of gcal.py applied to one loop element: extract the start
value and test `start.startswith(today_str)`.  Raises `KeyError` when the
record has no `'start'` key, and `AttributeError` when neither `dateTime`
nor `date` is present (the extracted value is Python `None`, and
`None.startswith` raises). -/
def startMatchesToday (today_str : String) (event : Event) : Except PyErr Bool :=
  match event.start with
  | none => .error (.keyError "start")
  | some sd =>
    match startValue sd with
    | none =>
      .error (.attributeError "'NoneType' object has no attribute 'startswith'")
    | some start => .ok (pyStartsWith start today_str)

/-- The pure selection predicate the loop of `cmd_today` implements on events
whose start extraction yields a string: textual prefix match of the start
value against today's date string; an event with no extractable start is not
kept (the code would raise on it instead, which `startMatchesToday` records).
-/
def todayKeep (today_str : String) (event : Event) : Bool :=
  match event.start with
  | none => false
  | some sd =>
    match startValue sd with
    | none => false
    | some start => pyStartsWith start today_str

/-- The `for event in events` loop of `cmd_today` (gcal.py lines 89-95):
tests every event in order (no `break`), prints the matching ones via
`print_event`, and counts them.  Returns the selected events, the printed
lines, the final `count`, and the outcome; on an exception the lines already
printed before it are kept and the outcome is the error. -/
def todayLoop (today_str : String) : List Event → (List Event × List String × Nat) × Except PyErr Unit
  | [] => (([], [], 0), .ok ())
  | event :: rest =>
    match startMatchesToday today_str event with
    | .error e => (([], [], 0), .error e)
    | .ok b =>
      if b then
        match print_event event "" with
        | .error e => (([], [], 0), .error e)
        | .ok line =>
          let ((sel, lines, count), out) := todayLoop today_str rest
          ((event :: sel, line :: lines, count + 1), out)
      else
        todayLoop today_str rest

/-- The two header lines `cmd_today` prints before calling the API
(gcal.py lines 74-75). -/
def todayHeader (today_str : String) : List String :=
  ["📅 Agenda for Today (" ++ today_str ++ "):",
   "----------------------------------------"]

/-- Embedding of `cmd_today` (gcal.py lines 62-98) given the outcome of the
`service.events().list(...).execute()` call (`items`, already defaulted to
`[]` by `.get('items', [])`) and today's local ISO date string: prints the
header, then `"No events found."` on an empty list (early return), otherwise
runs the filter loop and prints `"Nothing left for today! 🎉"` when the
loop matched nothing. -/
def cmd_today (listResult : Except PyErr (List Event)) (today_str : String) :
    List String × Except PyErr Unit :=
  let hdr := todayHeader today_str
  match listResult with
  | .error e => (hdr, .error e)
  | .ok events =>
    if events = [] then
      (hdr ++ ["No events found."], .ok ())
    else
      match todayLoop today_str events with
      | ((_, lines, _count), .error e) => (hdr ++ lines, .error e)
      | ((_, lines, count), .ok _) =>
        if count = 0 then
          (hdr ++ lines ++ ["Nothing left for today! 🎉"], .ok ())
        else
          (hdr ++ lines, .ok ())

/-- Embedding of `cmd_next` (gcal.py lines 48-60) given the `items` list from the API call
(maxResults=1): prints `"No upcoming events found."` on an empty list, else
formats exactly the first element through `print_event` with the NEXT
prefix. -/
def cmd_next (listResult : Except PyErr (List Event)) : List String × Except PyErr Unit :=
  match listResult with
  | .error e => ([], .error e)
  | .ok events =>
    match events with
    | [] => (["No upcoming events found."], .ok ())
    | e0 :: _ =>
      match print_event e0 "⏭️  NEXT: " with
      | .error e => ([], .error e)
      | .ok line => ([line], .ok ())

/-- Python's `sep.join(list)`. -/
def pyJoin (sep : String) : List String → String
  | [] => ""
  | [s] => s
  | s :: rest => s ++ sep ++ pyJoin sep rest

/-- Python's `str(value)` for an optional field fetched with `dict.get`:
`None` renders as `"None"` inside an f-string. -/
def pyShowOpt : Option String → String
  | some s => s
  | none => "None"

/-- Result of `cmd_add`: the text passed to the quick-add request, the lines
printed, and the outcome. -/
structure AddRun where
  sentText : String
  lines : List String
  outcome : Except PyErr Unit
deriving DecidableEq, Repr

/-- Embedding of `cmd_add` (gcal.py lines 35-46) given the tokens of `args.text` and the
response the quick-add API call would return: joins the tokens with single
spaces (line 37), prints the `Adding:` line before the request, then on
success prints the created event's `summary` and `htmlLink` (via `.get`,
so a missing field renders as `None`). -/
def cmd_add (text : List String) (quickAddResult : Except PyErr Event) : AddRun :=
  let t := pyJoin " " text
  let adding := "Adding: '" ++ t ++ "'..."
  match quickAddResult with
  | .error e => ⟨t, [adding], .error e⟩
  | .ok event =>
    ⟨t,
     [adding,
      "✅ Created event: " ++ pyShowOpt event.summary,
      "   Link: " ++ pyShowOpt event.htmlLink],
     .ok ()⟩

/-- The observable state of a `google.oauth2.credentials.Credentials` object,
as `get_service` consults it: the library's `valid` property (access token
present and not expired — an expiry-free token is valid), the `expired`
property, and whether a refresh token is present (`creds.refresh_token`
truthiness). -/
structure Creds where
  valid : Bool
  expired : Bool
  refresh_token : Bool
deriving DecidableEq, Repr

/-- Contents of `token.json` as `Credentials.from_authorized_user_file` sees
them: either they deserialize into a credentials object, or they are corrupt
(invalid JSON raises `json.JSONDecodeError`, a `ValueError` subclass; a JSON
object missing required fields raises `ValueError`) — folded into one
`corrupt` constructor carrying the message. -/
inductive TokenFile where
  | parsed (c : Creds)
  | corrupt (msg : String)
deriving DecidableEq, Repr

/-- Modelled from the documented behaviour of
`Credentials.from_authorized_user_file` (google-auth, external library):
deserializes the token file or raises a `ValueError`-family error on corrupt
contents; there is no `try` around the call site in `get_service`. -/
def from_authorized_user_file : TokenFile → Except PyErr Creds
  | .parsed c => .ok c
  | .corrupt msg => .error (.valueError msg)

/-- The environment `get_service` runs against: whether `token.json` exists
and what it holds, the outcome of `creds.refresh(Request())` (network call),
and the outcome of loading `credentials.json` plus running the interactive
`flow.run_local_server(port=0)` consent flow (folded into one result, since
the code enters both on the same branch). -/
structure AuthWorld where
  tokenFileExists : Bool
  tokenFile : TokenFile
  refreshResult : Except PyErr Unit
  flowResult : Except PyErr Creds
deriving DecidableEq, Repr

/-- Observable side effects of one `get_service` run: reads and writes of
`token.json`, whether the interactive-authorization branch was entered, and
whether `creds.refresh` was called. -/
structure Trace where
  tokenReads : Nat
  tokenWrites : Nat
  flowRun : Bool
  refreshCalled : Bool
deriving DecidableEq, Repr

/-- Embedding of `get_service` (gcal.py lines 14-33), returning the effect trace and the
credentials handed to `build` (the returned service is a function of exactly
those credentials, so they stand for it).  Faithful control flow: read the
token file if it exists (a corrupt file raises out of the function, line 22
has no handler); if there are no credentials or they are invalid, refresh
when expired with a refresh token present, otherwise run the interactive
flow; after either branch write `token.json` (lines 30-31). -/
def get_service (w : AuthWorld) : Trace × Except PyErr Creds :=
  let reads := if w.tokenFileExists then 1 else 0
  let credsRead : Except PyErr (Option Creds) :=
    if w.tokenFileExists then
      (from_authorized_user_file w.tokenFile).map some
    else
      .ok none
  match credsRead with
  | .error e => (⟨reads, 0, false, false⟩, .error e)
  | .ok creds =>
    match creds with
    | some c =>
      if c.valid then
        (⟨reads, 0, false, false⟩, .ok c)
      else if c.expired && c.refresh_token then
        match w.refreshResult with
        | .error e => (⟨reads, 0, false, true⟩, .error e)
        | .ok _ =>
          (⟨reads, 1, false, true⟩, .ok { c with valid := true, expired := false })
      else
        match w.flowResult with
        | .error e => (⟨reads, 0, true, false⟩, .error e)
        | .ok c2 => (⟨reads, 1, true, false⟩, .ok c2)
    | none =>
      match w.flowResult with
      | .error e => (⟨reads, 0, true, false⟩, .error e)
      | .ok c2 => (⟨reads, 1, true, false⟩, .ok c2)

/-- A parsed command line, as `argparse` hands it to the dispatch
(gcal.py lines 115-128): subcommand `add` carries its one-or-more text
tokens; `next` and `today` carry nothing. -/
inductive Args where
  | add (text : List String)
  | next
  | today
deriving DecidableEq, Repr

/-- Modelled from the `argparse` configuration of `main` (lines 115-128) and
argparse's documented behaviour: the subparser is `required`, `add` takes
`nargs='+'` (at least one token), `next` and `today` take no positionals;
every violation makes `parse_args` print usage and call `sys.exit(2)`
(`SystemExit(2)`), embedded as `.error 2`.  Help flags are not modelled (no
claim exercises them). -/
def parse_args (argv : List String) : Except Nat Args :=
  match argv with
  | "add" :: rest => if rest = [] then .error 2 else .ok (.add rest)
  | ["next"] => .ok .next
  | ["today"] => .ok .today
  | _ => .error 2

/-- Everything a full run consumes from the outside world: the auth
environment and the three possible API responses, plus today's local ISO
date string. -/
structure World where
  auth : AuthWorld
  quickAddResult : Except PyErr Event
  nextListResult : Except PyErr (List Event)
  todayListResult : Except PyErr (List Event)
  today_str : String
deriving Repr

/-- How the process ends: `normal` falls off the end of `main` (exit status
0); `exited code` is `sys.exit(code)` raised by `argparse`, which nothing
catches (`SystemExit` is not an `Exception` and is raised before the `try`
anyway). -/
inductive ExitStatus where
  | normal
  | exited (code : Nat)
deriving DecidableEq, Repr

/-- The body of the `try` block of `main` (lines 130-137): acquire the
service, then dispatch on the subcommand.  Returns the lines printed inside
the block and its outcome. -/
def try_body (args : Args) (w : World) : List String × Except PyErr Unit :=
  match (get_service w.auth).2 with
  | .error e => ([], .error e)
  | .ok _ =>
    match args with
    | .add text =>
      let r := cmd_add text w.quickAddResult
      (r.lines, r.outcome)
    | .next => cmd_next w.nextListResult
    | .today => cmd_today w.todayListResult w.today_str

/-- Embedding of `main` (gcal.py lines 114-139): `parse_args` runs OUTSIDE the `try`, so
an argument error exits with argparse's code 2 and no `Error:` line; any
`Exception` raised inside the `try` is caught by the single
`except Exception` clause, printed as `Error: {e}` after whatever the block
already printed, and the process ends normally. -/
def main (argv : List String) (w : World) : List String × ExitStatus :=
  match parse_args argv with
  | .error code => ([], .exited code)
  | .ok args =>
    match try_body args w with
    | (lines, .ok _) => (lines, .normal)
    | (lines, .error e) => (lines ++ ["Error: " ++ pyErrMsg e], .normal)

/-! Sample records used to instantiate hypotheses of the theorems below. -/

/-- A timed event starting on 2024-01-01. -/
def evStandup : Event := ⟨some ⟨some "2024-01-01T09:00:00", none⟩, some "Standup", none⟩

/-- A timed event starting on 2024-01-02. -/
def evReview : Event := ⟨some ⟨some "2024-01-02T10:00:00", none⟩, some "Review", none⟩

/-- An all-day event: the start dictionary has only the `date` key. -/
def evHoliday : Event := ⟨some ⟨none, some "2024-01-01"⟩, some "Holiday", none⟩

/-- A malformed record without a `summary` key. -/
def evNoSummary : Event := ⟨some ⟨some "2024-01-01T09:00:00", none⟩, none, none⟩

/-- A malformed record whose start dictionary has neither `dateTime` nor
`date`. -/
def evNoStartVal : Event := ⟨some ⟨none, none⟩, some "Mystery", none⟩

/-- A created event as the quick-add call returns it. -/
def evCreated : Event := ⟨none, some "Dinner", some "https://calendar.example/event1"⟩

/-- Suffix form of a separated join: each token preceded by the separator.
Bridges `pyJoin` and `String.intercalate`. -/
def tailJoin (sep : String) : List String → String
  | [] => ""
  | s :: rest => sep ++ s ++ tailJoin sep rest

/-- An auth environment whose `token.json` exists but is corrupt, and whose
interactive flow would succeed if it were reached. -/
def corruptTokenWorld : AuthWorld :=
  ⟨true, .corrupt "Expecting value: line 1 column 1 (char 0)", .ok (), .ok ⟨true, false, true⟩⟩

/-- An auth environment with a valid token on disk. -/
def validTokenWorld : AuthWorld :=
  ⟨true, .parsed ⟨true, false, true⟩, .ok (), .ok ⟨true, false, true⟩⟩

/-- A world in which every external interaction succeeds. -/
def benignWorld : World :=
  ⟨validTokenWorld, .ok evCreated, .ok [], .ok [], "2024-01-01"⟩

/-- A world in which the `next` list API call fails. -/
def failNextWorld : World :=
  ⟨validTokenWorld, .ok evCreated, .error (.apiError "HttpError 503"), .ok [], "2024-01-01"⟩

/-! Helper lemmas about the today-filter loop. -/

/-- When the line-93 test completes with boolean `b`, the pure predicate
`todayKeep` agrees with it. -/
theorem todayKeep_eq_of_matches (today_str : String) (event : Event) (b : Bool)
    (h : startMatchesToday today_str event = Except.ok b) :
    todayKeep today_str event = b := by
  cases hs : event.start with
  | none => simp [startMatchesToday, hs] at h
  | some sd =>
    cases hv : startValue sd with
    | none => simp [startMatchesToday, hs, hv] at h
    | some s =>
      simp only [startMatchesToday, hs, hv, Except.ok.injEq] at h
      simp [todayKeep, hs, hv, h]

/-- An event kept by the pure predicate passes the line-93 test without
raising. -/
theorem matches_of_todayKeep (today_str : String) (event : Event)
    (h : todayKeep today_str event = true) :
    startMatchesToday today_str event = Except.ok true := by
  cases hs : event.start with
  | none => simp [todayKeep, hs] at h
  | some sd =>
    cases hv : startValue sd with
    | none => simp [todayKeep, hs, hv] at h
    | some s =>
      simp only [todayKeep, hs, hv] at h
      simp [startMatchesToday, hs, hv, h]

/-- Characterization of a completed run of the loop of `cmd_today`: the
selected events are exactly the `todayKeep`-filter of the whole input (in
input order), the count is their number, and each printed line is the
`print_event` rendering of the corresponding selected event. -/
theorem todayLoop_ok_spec (today_str : String) :
    ∀ (events sel : List Event) (lines : List String) (c : Nat),
      todayLoop today_str events = ((sel, lines, c), Except.ok ()) →
      sel = events.filter (todayKeep today_str) ∧ c = sel.length ∧
        List.Forall₂ (fun e l => print_event e "" = Except.ok l) sel lines := by
  intro events
  induction events with
  | nil =>
    intro sel lines c h
    simp only [todayLoop, Prod.mk.injEq] at h
    obtain ⟨⟨hsel, hlines, hc⟩, -⟩ := h
    subst hsel hlines hc
    exact ⟨rfl, rfl, List.Forall₂.nil⟩
  | cons e rest ih =>
    intro sel lines c h
    rw [todayLoop] at h
    cases hm : startMatchesToday today_str e with
    | error err => rw [hm] at h; simp at h
    | ok b =>
      rw [hm] at h
      cases b with
      | false =>
        simp only [Bool.false_eq_true, if_false] at h
        obtain ⟨h1, h2, h3⟩ := ih sel lines c h
        have hk : todayKeep today_str e = false := todayKeep_eq_of_matches _ _ _ hm
        refine ⟨?_, h2, h3⟩
        rw [List.filter_cons_of_neg (by simp [hk])]
        exact h1
      | true =>
        simp only [if_true] at h
        cases hp : print_event e "" with
        | error err => rw [hp] at h; simp at h
        | ok line =>
          rw [hp] at h
          rcases hrest : todayLoop today_str rest with ⟨⟨sel', lines', c'⟩, out⟩
          rw [hrest] at h
          simp only [Prod.mk.injEq] at h
          obtain ⟨⟨hsel, hlines, hc⟩, hout⟩ := h
          subst hout
          obtain ⟨h1, h2, h3⟩ := ih sel' lines' c' hrest
          have hk : todayKeep today_str e = true := todayKeep_eq_of_matches _ _ _ hm
          subst hsel hlines hc
          refine ⟨?_, by simp [h2], List.Forall₂.cons hp h3⟩
          rw [List.filter_cons_of_pos (by simp [hk])]
          rw [h1]

/-- Re-running the loop on a list every element of which passes the test and
prints successfully selects everything and reproduces the lines. -/
theorem todayLoop_of_forall (today_str : String) (sel : List Event) (lines : List String)
    (hk : ∀ e ∈ sel, startMatchesToday today_str e = Except.ok true)
    (hl : List.Forall₂ (fun e l => print_event e "" = Except.ok l) sel lines) :
    todayLoop today_str sel = ((sel, lines, sel.length), Except.ok ()) := by
  induction hl with
  | nil => rfl
  | @cons e line sel' lines' hpe hrest ih =>
    rw [todayLoop, hk e (by simp)]
    simp only [if_true]
    rw [hpe, ih (fun x hx => hk x (by simp [hx]))]
    simp [List.length_cons]

/-- A loop over events none of which passes the test selects nothing, prints
nothing and ends with count 0. -/
theorem todayLoop_of_none (today_str : String) :
    ∀ events : List Event,
      (∀ e ∈ events, startMatchesToday today_str e = Except.ok false) →
      todayLoop today_str events = (([], [], 0), Except.ok ()) := by
  intro events
  induction events with
  | nil => intro _; rfl
  | cons e rest ih =>
    intro h
    rw [todayLoop, h e (by simp)]
    simp only [Bool.false_eq_true, if_false]
    exact ih (fun x hx => h x (by simp [hx]))

/-- Accumulator lemma for `String.intercalate`. -/
theorem intercalate_go_eq (sep : String) :
    ∀ (l : List String) (acc : String),
      String.intercalate.go acc sep l = acc ++ tailJoin sep l := by
  intro l
  induction l with
  | nil => intro acc; simp [String.intercalate.go, tailJoin]
  | cons s rest ih =>
    intro acc
    rw [String.intercalate.go, ih, tailJoin]
    simp [String.append_assoc]

/-- Head form of `pyJoin` through `tailJoin`. -/
theorem pyJoin_cons_eq (sep : String) :
    ∀ (l : List String) (s : String), pyJoin sep (s :: l) = s ++ tailJoin sep l := by
  intro l
  induction l with
  | nil => intro s; simp [pyJoin, tailJoin]
  | cons t rest ih =>
    intro s
    simp only [pyJoin, tailJoin, ih]
    simp [String.append_assoc]

/-- Python's `" ".join` agrees with Lean's `String.intercalate`. -/
theorem pyJoin_eq_intercalate (sep : String) (l : List String) :
    pyJoin sep l = String.intercalate sep l := by
  cases l with
  | nil => rfl
  | cons s rest => rw [pyJoin_cons_eq, String.intercalate, intercalate_go_eq]

/-- C1: whenever the loop of `cmd_today` completes, it has examined every
element of the list without breaking early and selected exactly the events
whose start value (the `dateTime` field if present, otherwise the `date`
field) begins textually with today's date string, keeping input order; the
final count is the number of selected events.  The spec's example (starts
`2024-01-01T09:00:00` and `2024-01-02T10:00:00`, today `2024-01-01`,
selecting exactly the first event) is the witness instance. -/
theorem today_filter_selects_matches (today_str : String) (events sel : List Event)
    (lines : List String) (c : Nat)
    (h : todayLoop today_str events = ((sel, lines, c), Except.ok ())) :
    sel = events.filter (todayKeep today_str) ∧ c = sel.length := by
  obtain ⟨h1, h2, -⟩ := todayLoop_ok_spec today_str events sel lines c h
  exact ⟨h1, h2⟩

/-- Witness for C1 at the spec's two-event example. -/
theorem today_filter_selects_matches_witness :
    todayLoop "2024-01-01" [evStandup, evReview]
      = (([evStandup], ["\x1b[96m[09:00 AM]\x1b[0m Standup"], 1), Except.ok ()) ∧
    ([evStandup] = [evStandup, evReview].filter (todayKeep "2024-01-01") ∧
      1 = [evStandup].length) :=
  ⟨by decide,
    today_filter_selects_matches "2024-01-01" [evStandup, evReview] [evStandup]
      ["\x1b[96m[09:00 AM]\x1b[0m Standup"] 1 (by decide)⟩

/-- C10: the loop's selection is an order-preserving subsequence of its input
(no element duplicated, reordered or synthesized), and running the loop a
second time on its own output with the same date string reproduces exactly
that output (idempotence of the filter). -/
theorem today_filter_sublist_idempotent (today_str : String) (events sel : List Event)
    (lines : List String) (c : Nat)
    (h : todayLoop today_str events = ((sel, lines, c), Except.ok ())) :
    sel.Sublist events ∧
      todayLoop today_str sel = ((sel, lines, sel.length), Except.ok ()) := by
  obtain ⟨h1, -, h3⟩ := todayLoop_ok_spec today_str events sel lines c h
  constructor
  · rw [h1]; exact List.filter_sublist events
  · refine todayLoop_of_forall today_str sel lines ?_ h3
    intro e he
    apply matches_of_todayKeep
    rw [h1] at he
    exact (List.mem_filter.mp he).2

/-- Witness for C10: re-filtering the selected singleton reproduces it. -/
theorem today_filter_sublist_idempotent_witness :
    [evStandup].Sublist [evStandup, evReview] ∧
      todayLoop "2024-01-01" [evStandup]
        = (([evStandup], ["\x1b[96m[09:00 AM]\x1b[0m Standup"], [evStandup].length),
           Except.ok ()) :=
  today_filter_sublist_idempotent "2024-01-01" [evStandup, evReview] [evStandup]
    ["\x1b[96m[09:00 AM]\x1b[0m Standup"] 1 (by decide)

/-- C7 counterexample: for the EMPTY returned event sequence — which has zero
matching events — `cmd_today` takes the early `No events found.` path and
never prints `Nothing left for today!`, refuting the claim's quantification
over every sequence with zero matches. -/
theorem cmd_today_empty_counterexample :
    cmd_today (Except.ok []) "2024-01-01"
      = (todayHeader "2024-01-01" ++ ["No events found."], Except.ok ()) ∧
    "Nothing left for today! 🎉" ∉ todayHeader "2024-01-01" ++ ["No events found."] := by
  decide

/-- C7 amended: for every NON-empty returned event sequence in which zero
events match today's date string, the filter loop selects nothing and
`cmd_today` prints the `Nothing left for today!` message after the header;
the empty sequence instead takes the early `No events found.` path. -/
theorem cmd_today_nothing_left (today_str : String) (events : List Event)
    (hne : events ≠ [])
    (hnone : ∀ e ∈ events, startMatchesToday today_str e = Except.ok false) :
    todayLoop today_str events = (([], [], 0), Except.ok ()) ∧
    cmd_today (Except.ok events) today_str
      = (todayHeader today_str ++ ["Nothing left for today! 🎉"], Except.ok ()) := by
  have hl := todayLoop_of_none today_str events hnone
  refine ⟨hl, ?_⟩
  simp [cmd_today, hne, hl]

/-- Witness for C7 at a one-event list starting on the next day. -/
theorem cmd_today_nothing_left_witness :
    ([evReview] ≠ ([] : List Event)) ∧
    (∀ e ∈ [evReview], startMatchesToday "2024-01-01" e = Except.ok false) ∧
    (todayLoop "2024-01-01" [evReview] = (([], [], 0), Except.ok ()) ∧
      cmd_today (Except.ok [evReview]) "2024-01-01"
        = (todayHeader "2024-01-01" ++ ["Nothing left for today! 🎉"], Except.ok ())) :=
  ⟨by decide, by decide,
    cmd_today_nothing_left "2024-01-01" [evReview] (by decide) (by decide)⟩

/-- C2 (code bug): `fromisoformat` parses a date-only string successfully
(to midnight), so the `except ValueError` fallback never fires for a
well-formed all-day start: `print_event` renders start `2024-01-01` with
time token `12:00 AM`, not `All Day`.  The timed half of the claim does
hold (`2024-01-01T14:30:00` renders `02:30 PM`), and `All Day` appears
exactly when the start string fails the parse altogether. -/
theorem print_event_all_day_renders_midnight :
    print_event evHoliday "" = Except.ok "\x1b[96m[12:00 AM]\x1b[0m Holiday" ∧
    fromisoformat "2024-01-01" = some ⟨2024, 1, 1, 0, 0, 0⟩ ∧
    print_event ⟨some ⟨some "2024-01-01T14:30:00", none⟩, some "Sync", none⟩ ""
      = Except.ok "\x1b[96m[02:30 PM]\x1b[0m Sync" ∧
    print_event ⟨some ⟨some "not a date", none⟩, some "Weird", none⟩ ""
      = Except.ok "\x1b[96m[All Day]\x1b[0m Weird" := by
  decide

/-- C3 counterexample: with an existing but corrupt `token.json` (and an
interactive flow that would succeed if reached), `get_service` raises the
deserialization `ValueError` after its single read: the
interactive-authorization branch is never entered and nothing is written,
refuting "treats the file as absent and proceeds to interactive
re-authorization ... never raises". -/
theorem get_service_corrupt_counterexample :
    get_service corruptTokenWorld
      = (⟨1, 0, false, false⟩,
         Except.error (.valueError "Expecting value: line 1 column 1 (char 0)")) := by
  decide

/-- C3 amended: if the token file exists but its contents do not deserialize,
`get_service` propagates the `ValueError` (line 22 has no handler): one
read, no write, no refresh call, no interactive flow; the error is caught
only by the top-level handler in `main`. -/
theorem get_service_corrupt_raises (w : AuthWorld) (msg : String)
    (he : w.tokenFileExists = true) (hc : w.tokenFile = .corrupt msg) :
    get_service w = (⟨1, 0, false, false⟩, Except.error (.valueError msg)) := by
  simp [get_service, from_authorized_user_file, he, hc, Except.map]

/-- Witness for the amended C3 at `corruptTokenWorld`. -/
theorem get_service_corrupt_raises_witness :
    corruptTokenWorld.tokenFileExists = true ∧
    corruptTokenWorld.tokenFile = .corrupt "Expecting value: line 1 column 1 (char 0)" ∧
    get_service corruptTokenWorld
      = (⟨1, 0, false, false⟩,
         Except.error (.valueError "Expecting value: line 1 column 1 (char 0)")) :=
  ⟨rfl, rfl, get_service_corrupt_raises corruptTokenWorld _ rfl rfl⟩

/-- C6: a run starting from an existing token file whose contents deserialize
into valid credentials returns exactly those credentials: the interactive
flow is not triggered, refresh is not called, the token file is read once
and written zero times (its contents are untouched). -/
theorem get_service_valid_token_read_only (w : AuthWorld) (c : Creds)
    (he : w.tokenFileExists = true) (ht : w.tokenFile = .parsed c) (hv : c.valid = true) :
    get_service w = (⟨1, 0, false, false⟩, Except.ok c) := by
  simp [get_service, from_authorized_user_file, he, ht, hv, Except.map]

/-- Witness for C6 at `validTokenWorld`. -/
theorem get_service_valid_token_read_only_witness :
    validTokenWorld.tokenFileExists = true ∧
    validTokenWorld.tokenFile = .parsed ⟨true, false, true⟩ ∧
    (⟨true, false, true⟩ : Creds).valid = true ∧
    get_service validTokenWorld = (⟨1, 0, false, false⟩, Except.ok ⟨true, false, true⟩) :=
  ⟨rfl, rfl, rfl,
    get_service_valid_token_read_only validTokenWorld ⟨true, false, true⟩ rfl rfl rfl⟩

/-- C5 counterexample: an event record without a `summary` key makes
`print_event` raise `KeyError` (line 102 sits outside the `try`), refuting
"no error is raised beyond the parse-failure fallback; the function always
returns after printing". -/
theorem print_event_missing_summary_counterexample :
    print_event evNoSummary "" = Except.error (.keyError "summary") := by decide

/-- C5 amended: `print_event` recovers only from a failed date-time parse of
a string start (rendering `All Day`); a record without a `start` key raises
`KeyError`, one without `summary` raises `KeyError`, and a start dictionary
with neither `dateTime` nor `date` hands Python `None` to `fromisoformat`,
raising a `TypeError` the `except ValueError` clause does not catch. -/
theorem print_event_error_cases (event : Event) (pfx : String) :
    (event.start = none → print_event event pfx = Except.error (.keyError "start")) ∧
    (∀ sd, event.start = some sd → event.summary = none →
      print_event event pfx = Except.error (.keyError "summary")) ∧
    (∀ sd summary, event.start = some sd → event.summary = some summary →
      startValue sd = none →
      print_event event pfx
        = Except.error (.typeError "fromisoformat: argument must be str")) ∧
    (∀ sd summary start, event.start = some sd → event.summary = some summary →
      startValue sd = some start → fromisoformat start = none →
      print_event event pfx
        = Except.ok (pfx ++ "\x1b[96m[" ++ "All Day" ++ "]\x1b[0m " ++ summary)) := by
  refine ⟨fun h => by simp [print_event, h],
    fun sd h1 h2 => by simp [print_event, h1, h2],
    fun sd summary h1 h2 h3 => by simp [print_event, h1, h2, h3],
    fun sd summary start h1 h2 h3 h4 => by simp [print_event, h1, h2, h3, h4]⟩

/-- Witness for the amended C5 at a record whose start dictionary is empty. -/
theorem print_event_error_cases_witness :
    evNoStartVal.start = some ⟨none, none⟩ ∧ evNoStartVal.summary = some "Mystery" ∧
    startValue ⟨none, none⟩ = none ∧
    print_event evNoStartVal ""
      = Except.error (.typeError "fromisoformat: argument must be str") :=
  ⟨rfl, rfl, rfl,
    (print_event_error_cases evNoStartVal "").2.2.1 ⟨none, none⟩ "Mystery" rfl rfl rfl⟩

/-- C8: with an empty upcoming list `cmd_next` prints exactly the single
literal line `No upcoming events found.` (so no presenter output occurs);
with a non-empty list it prints exactly the `print_event` rendering of the
first element. -/
theorem cmd_next_empty_or_first :
    cmd_next (Except.ok []) = (["No upcoming events found."], Except.ok ()) ∧
    (∀ (e0 : Event) (rest : List Event) (line : String),
      print_event e0 "⏭️  NEXT: " = Except.ok line →
      cmd_next (Except.ok (e0 :: rest)) = ([line], Except.ok ())) := by
  refine ⟨rfl, fun e0 rest line h => ?_⟩
  simp [cmd_next, h]

/-- Witness for C8 on a two-event list: only the first is formatted. -/
theorem cmd_next_empty_or_first_witness :
    print_event evStandup "⏭️  NEXT: "
      = Except.ok "⏭️  NEXT: \x1b[96m[09:00 AM]\x1b[0m Standup" ∧
    cmd_next (Except.ok [evStandup, evReview])
      = (["⏭️  NEXT: \x1b[96m[09:00 AM]\x1b[0m Standup"], Except.ok ()) :=
  ⟨by decide,
    cmd_next_empty_or_first.2 evStandup [evReview]
      "⏭️  NEXT: \x1b[96m[09:00 AM]\x1b[0m Standup" (by decide)⟩

/-- C9: for one or more text tokens, the text `cmd_add` sends to the
quick-add call is the tokens joined by single spaces (equal to
`String.intercalate " "`), and on success it prints the `Adding:` line
followed by the returned event's `summary` and `htmlLink` values verbatim. -/
theorem cmd_add_joins_and_prints (text : List String) (event : Event) (s u : String)
    (_hne : text ≠ []) (hs : event.summary = some s) (hu : event.htmlLink = some u) :
    (cmd_add text (Except.ok event)).sentText = String.intercalate " " text ∧
    (cmd_add text (Except.ok event)).lines
      = ["Adding: '" ++ String.intercalate " " text ++ "'...",
         "✅ Created event: " ++ s,
         "   Link: " ++ u] ∧
    (cmd_add text (Except.ok event)).outcome = Except.ok () := by
  simp [cmd_add, pyJoin_eq_intercalate, pyShowOpt, hs, hu]

/-- Witness for C9 at the spec's `add "Dinner at 7pm"` example. -/
theorem cmd_add_joins_and_prints_witness :
    (["Dinner at 7pm"] : List String) ≠ [] ∧
    evCreated.summary = some "Dinner" ∧
    evCreated.htmlLink = some "https://calendar.example/event1" ∧
    ((cmd_add ["Dinner at 7pm"] (Except.ok evCreated)).sentText
        = String.intercalate " " ["Dinner at 7pm"] ∧
      (cmd_add ["Dinner at 7pm"] (Except.ok evCreated)).lines
        = ["Adding: '" ++ String.intercalate " " ["Dinner at 7pm"] ++ "'...",
           "✅ Created event: " ++ "Dinner",
           "   Link: " ++ "https://calendar.example/event1"] ∧
      (cmd_add ["Dinner at 7pm"] (Except.ok evCreated)).outcome = Except.ok ()) :=
  ⟨by decide, rfl, rfl,
    cmd_add_joins_and_prints ["Dinner at 7pm"] evCreated "Dinner"
      "https://calendar.example/event1" (by decide) rfl rfl⟩

/-- C4 counterexample: invoking `add` with no text tokens fails argument
validation, which happens BEFORE the `try` block: the run exits with
argparse's status 2 and prints no `Error:` line, refuting "for every
exception anywhere in the chain, including argument parsing and subcommand
validation, main catches it, prints `Error: <message>` and exits
normally". -/
theorem main_add_no_text_counterexample :
    main ["add"] benignWorld = ([], ExitStatus.exited 2) := by decide

/-- C4 amended: every exception raised inside the `try` block (credential
acquisition, API invocation, presentation) is caught by the single handler,
which appends `Error: <message>` to whatever the block already printed, and
the process exits normally; a successful body also exits normally; but
argument-parsing and subcommand-validation failures are handled by argparse
itself, which exits with status 2 before the `try` block and prints no
`Error:` line. -/
theorem main_single_failure_path :
    (∀ (argv : List String) (args : Args) (w : World) (lines : List String) (e : PyErr),
      parse_args argv = Except.ok args → try_body args w = (lines, Except.error e) →
      main argv w = (lines ++ ["Error: " ++ pyErrMsg e], ExitStatus.normal)) ∧
    (∀ (argv : List String) (args : Args) (w : World) (lines : List String),
      parse_args argv = Except.ok args → try_body args w = (lines, Except.ok ()) →
      main argv w = (lines, ExitStatus.normal)) ∧
    (∀ (argv : List String) (w : World) (code : Nat),
      parse_args argv = Except.error code → main argv w = ([], ExitStatus.exited code)) := by
  refine ⟨fun argv args w lines e hp hb => ?_,
    fun argv args w lines hp hb => ?_,
    fun argv w code hp => ?_⟩
  · simp [main, hp, hb]
  · simp [main, hp, hb]
  · simp [main, hp]

/-- Witness for the amended C4: an API failure under `next` is printed as an
`Error:` line with a normal exit, while `add` without tokens exits 2. -/
theorem main_single_failure_path_witness :
    parse_args ["next"] = Except.ok Args.next ∧
    try_body Args.next failNextWorld = ([], Except.error (.apiError "HttpError 503")) ∧
    main ["next"] failNextWorld
      = ([] ++ ["Error: " ++ pyErrMsg (.apiError "HttpError 503")], ExitStatus.normal) ∧
    parse_args ["add"] = Except.error 2 ∧
    main ["add"] failNextWorld = ([], ExitStatus.exited 2) :=
  ⟨by decide, by decide,
    main_single_failure_path.1 ["next"] Args.next failNextWorld []
      (.apiError "HttpError 503") (by decide) (by decide),
    by decide,
    main_single_failure_path.2.2 ["add"] failNextWorld 2 (by decide)⟩

end Gcal
